import Mathlib

/-!
Shallow embedding of the pySysAid client library
(`src/pysysaid/client.py` and `src/pysysaid/service_request.py`).

The HTTP transport, the JSON codec and the cookie file store are external
collaborators; they are modelled as parameters (a `transport` function from
attempt index to response, an abstract `dumps` serializer, and an explicit
`store` component of the login state).  All control flow, state mutation and
error behaviour of the Python source is translated directly.
-/

/-- JSON-like values, as returned by the remote API and stored in ticket
fields.  `arr`/`obj` mirror Python lists/dicts. -/
inductive JVal where
  | str (s : String)
  | num (n : Int)
  | bool (b : Bool)
  | null
  | arr (xs : List JVal)
  | obj (kvs : List (String × JVal))

/-- Python truthiness of a JSON value (`if body:` style tests). -/
def JVal.truthy : JVal → Bool
  | .str s => !s.isEmpty
  | .num n => n != 0
  | .bool b => b
  | .null => false
  | .arr xs => !xs.isEmpty
  | .obj kvs => !kvs.isEmpty

/-- Python `dict` lookup (`d.get(k)` / `d[k]`) over an insertion-ordered
association list with unique keys. -/
def dictGet {α : Type} : List (String × α) → String → Option α
  | [], _ => none
  | p :: rest, k => if p.1 = k then some p.2 else dictGet rest k

/-- Python `dict` assignment `d[k] = v`: updates the entry in place if the key
exists, otherwise appends it (keys are unique by construction). -/
def dictSet {α : Type} : List (String × α) → String → α → List (String × α)
  | [], k, v => [(k, v)]
  | p :: rest, k, v => if p.1 = k then (k, v) :: rest else p :: dictSet rest k v

/-! ### `Client.login` (client.py lines 73-89)

The login loop posts credentials and inspects the status code:
`200` captures and persists the cookies and leaves the loop; `429` sleeps for
300 seconds and retries; any other status goes through
`response.raise_for_status()`, which raises only for statuses in 400-599 and
is a no-op otherwise, in which case the loop body simply runs again with no
sleep.  The loop has no counter, so it is modelled with explicit fuel:
`none` means the loop was still running when the fuel ran out. -/

/-- A response to the login POST: status code and the cookie set it carries. -/
structure LoginResponse where
  status : Nat
  cookies : List (String × String)

/-- Observable login state: the client's current cookie set, the persisted
cookie store (`save_cookies`), how many cool-down sleeps happened and the
total seconds slept. -/
structure LoginState where
  cookies : List (String × String)
  store : Option (List (String × String))
  sleeps : Nat
  waited : Nat

/-- `response.raise_for_status()` raising an HTTPError for 4xx/5xx. -/
inductive LoginErr where
  | httpError (status : Nat)

/-- One execution of the `while True` loop of `Client.login`, `fuel` bounding
the number of iterations; `transport i` is the response to the `i`-th POST. -/
def login (transport : Nat → LoginResponse) :
    Nat → Nat → LoginState → Option (Except LoginErr LoginState)
  | 0, _, _ => none
  | fuel + 1, i, st =>
    let r := transport i
    if r.status = 200 then
      some (.ok { st with cookies := r.cookies, store := some r.cookies })
    else if r.status = 429 then
      login transport fuel (i + 1)
        { st with sleeps := st.sleeps + 1, waited := st.waited + 300 }
    else if 400 ≤ r.status ∧ r.status < 600 then
      some (.error (.httpError r.status))
    else
      login transport fuel (i + 1) st

/-! ### `Client.make_request` (client.py lines 91-137)

The request executor serializes a non-string body with `orjson.dumps`,
builds `req_params` (cookies, headers, and the truthy ones among params,
body, files), dispatches on the lower-cased method name (raising before any
network call for an unknown method), sends the request, and inspects the
status: 200 returns the decoded JSON (or the raw text when decoding fails),
401 with `retry=False` runs `self.login()` and re-issues the same request
with `retry=True`, 401 with `retry=True` raises, and any other status
raises.  `self.login()` is modelled as an atomic step that installs a fresh
cookie set (its internal loop is the `login` model above). -/

/-- A request body: either a pre-serialized string or a JSON value. -/
inductive Body where
  | str (s : String)
  | json (v : JVal)

/-- Python truthiness of a body value. -/
def Body.truthy : Body → Bool
  | .str s => !s.isEmpty
  | .json v => v.truthy

/-- `if body: body = orjson.dumps(body) if not isinstance(body, str)`:
a truthy JSON body is serialized with the abstract serializer `dumps`;
a falsy or already-string body is left alone. -/
def pySerialize (dumps : JVal → String) : Option Body → Option Body
  | none => none
  | some b =>
    if b.truthy then
      match b with
      | .str s => some (.str s)
      | .json v => some (.str (dumps v))
    else some b

/-- Truthiness of an optional dict-valued argument (`if params:`). -/
def optDictTruthy : Option (List (String × String)) → Bool
  | none => false
  | some l => !l.isEmpty

/-- `str.lower()`, character by character. -/
def pyLower (s : String) : String := ⟨s.data.map Char.toLower⟩

/-- `method.lower() in (get, post, put, delete)`: the dispatch of lines
110-119 picks a requests function or raises `ValueError`. -/
def validMethod (m : String) : Bool :=
  pyLower m == "get" || pyLower m == "post" || pyLower m == "put" || pyLower m == "delete"

/-- What one attempt actually sends: the `req_params` dict of lines 102-108
plus the target URL and method.  `params`/`body`/`files` are `none` when the
corresponding argument was falsy and therefore not put into `req_params`. -/
structure SentRequest where
  method : String
  url : String
  cookies : List (String × String)
  params : Option (List (String × String))
  body : Option Body
  files : Option (List (String × String))

/-- Builds the `SentRequest` for one attempt from the client's base URL and
current cookie set; `body` is the already-serialized body. -/
def buildSent (baseUrl : String) (cookies : List (String × String))
    (method endpoint : String) (params : Option (List (String × String)))
    (body : Option Body) (files : Option (List (String × String))) : SentRequest :=
  { method := method
    url := baseUrl ++ endpoint
    cookies := cookies
    params := if optDictTruthy params then params else none
    body := match body with
            | some b => if b.truthy then some b else none
            | none => none
    files := if optDictTruthy files then files else none }

/-- Response from the HTTP transport: status code, raw text, and the decoded
JSON payload when `response.json()` succeeds. -/
structure HttpResponse where
  status : Nat
  text : String
  jsonBody : Option JVal

/-- Observable side effects of `make_request`: HTTP attempts (with the retry
flag in force and the status received) and calls to `self.login()`. -/
inductive ClientEvent where
  | http (r : SentRequest) (retryFlag : Bool) (status : Nat)
  | loginCall

/-- Client state threaded through `make_request`: base URL, current cookie
set, the event trace, and how many HTTP attempts were made (indexing the
transport). -/
structure ClientState where
  baseUrl : String
  cookies : List (String × String)
  events : List ClientEvent
  attempts : Nat

/-- The exceptions `make_request` can raise: `ValueError` for an unknown
method (line 119), the 401-after-retry raise (line 134), and the raise for
any other non-200 status (line 137).  The latter two carry the printed
response text. -/
inductive MRErr where
  | unknownMethod (m : String)
  | authFailed (text : String)
  | requestFailed (text : String)

/-- A 200 result: decoded JSON, or the raw text when decoding fails. -/
inductive MROut where
  | json (v : JVal)
  | text (s : String)

/-- The `retry=True` leg of `make_request`: identical to the general case
except that a 401 raises instead of logging in again. -/
def make_request_retry (dumps : JVal → String) (transport : Nat → HttpResponse)
    (method endpoint : String) (params : Option (List (String × String)))
    (body : Option Body) (files : Option (List (String × String)))
    (st : ClientState) : ClientState × Except MRErr MROut :=
  let body1 := pySerialize dumps body
  if validMethod method then
    let r := buildSent st.baseUrl st.cookies method endpoint params body1 files
    let resp := transport st.attempts
    let st1 : ClientState :=
      { st with events := st.events ++ [.http r true resp.status],
                attempts := st.attempts + 1 }
    if resp.status = 200 then
      (st1, .ok (match resp.jsonBody with | some v => .json v | none => .text resp.text))
    else if resp.status = 401 then
      (st1, .error (.authFailed resp.text))
    else
      (st1, .error (.requestFailed resp.text))
  else (st, .error (.unknownMethod method))

/-- `Client.make_request`.  `loginCookies` is the cookie set a re-login
installs; on a first 401 the state records one `loginCall`, the cookies are
replaced, and the same request (method, endpoint, params, serialized body,
files) is re-issued with `retry=True`. -/
def make_request (dumps : JVal → String) (transport : Nat → HttpResponse)
    (loginCookies : List (String × String))
    (method endpoint : String) (params : Option (List (String × String)))
    (body : Option Body) (files : Option (List (String × String)))
    (retry : Bool) (st : ClientState) : ClientState × Except MRErr MROut :=
  if retry then
    make_request_retry dumps transport method endpoint params body files st
  else
    let body1 := pySerialize dumps body
    if validMethod method then
      let r := buildSent st.baseUrl st.cookies method endpoint params body1 files
      let resp := transport st.attempts
      let st1 : ClientState :=
        { st with events := st.events ++ [.http r false resp.status],
                  attempts := st.attempts + 1 }
      if resp.status = 200 then
        (st1, .ok (match resp.jsonBody with | some v => .json v | none => .text resp.text))
      else if resp.status = 401 then
        let st2 : ClientState :=
          { st1 with cookies := loginCookies, events := st1.events ++ [.loginCall] }
        make_request_retry dumps transport method endpoint params body1 files st2
      else
        (st1, .error (.requestFailed resp.text))
    else (st, .error (.unknownMethod method))

/-- Recognizes the login events in a trace. -/
def ClientEvent.isLogin : ClientEvent → Bool
  | .loginCall => true
  | _ => false

/-- Number of `self.login()` calls recorded in a client state. -/
def loginCount (st : ClientState) : Nat :=
  st.events.countP ClientEvent.isLogin

/-! ### `ServiceRequest` / `SRAttribute` (service_request.py)

A ticket wraps an id, four permission flags, an insertion-ordered field map
(`__info`, key to `SRAttribute`), an optional back-reference to the client,
the `auto_commit` flag and the `pending_commits` dict (key to old/new pair).
The client back-reference is modelled as an opaque token (`Option Nat`);
remote `update_sr` calls made by the proxy are recorded as values.  Logging
(`logger.warning` and friends) is not modelled. -/

/-- The raw field record wrapped by `SRAttribute` (key, value, value
classification and the two captions). -/
structure AttrData where
  key : String
  value : JVal := .null
  valueClass : JVal := .null
  valueCaption : JVal := .null
  keyCaption : JVal := .null

/-- One `client.update_sr(id, info)` call issued by the proxy, with the info
dicts reduced to their key/value pairs. -/
structure RemoteUpdate where
  id : Int
  info : List (String × JVal)

/-- State of a `ServiceRequest` instance.  `extra` holds plain instance
attributes created through `object.__setattr__` for non-reserved names. -/
structure SR where
  id : Int
  can_update : Bool := true
  can_delete : Bool := false
  can_archive : Bool := false
  has_children : Bool := false
  info : List (String × AttrData) := []
  client : Option Nat := none
  auto_commit : Bool := true
  pending_commits : List (String × (JVal × JVal)) := []
  extra : List (String × JVal) := []

/-- The errors raised by the proxy: `AttributeError` for read-only tickets,
missing fields, assignment to a settable-less property, re-setting the
client, and the two rollback failures; `ValueError` for switching
`auto_commit` on with pending commits. -/
inductive SRErr where
  | readOnly
  | notFound (name : String)
  | cantSetAttribute (name : String)
  | autoCommitPending
  | clientAlreadySet
  | fieldNotInSR (f : String)
  | noPendingEntry (f : String)

/-- Names that `super().__getattribute__` resolves on the class itself:
the properties and methods of `ServiceRequest`. -/
def reservedNames : List String :=
  ["id", "can_update", "can_delete", "can_archive", "has_children",
   "client", "pending_commits", "auto_commit", "set_client", "commit",
   "rollback", "from_response"]

/-- The properties without a setter; `object.__setattr__` raises
`AttributeError` for them. -/
def readOnlyProps : List String :=
  ["id", "can_update", "can_delete", "can_archive", "has_children",
   "client", "pending_commits"]

/-- How an attribute read was resolved. -/
inductive GetResult where
  | structural
  | field (v : JVal)

/-- `ServiceRequest.__getattribute__` (lines 65-73): class attributes and
plain instance attributes win; otherwise the info map is consulted and a
missing key raises `AttributeError`. -/
def SR.getattr (sr : SR) (name : String) : Except SRErr GetResult :=
  if (dictGet sr.extra name).isSome ∨ name ∈ reservedNames then
    .ok .structural
  else
    match dictGet sr.info name with
    | some a => .ok (.field a.value)
    | none => .error (.notFound name)

/-- The `auto_commit` property setter (lines 130-138): a no-op when the flag
does not change, an error when enabling it with pending commits. -/
def SR.set_auto_commit (sr : SR) (state : Bool) : Except SRErr SR :=
  if state == sr.auto_commit then .ok sr
  else if state && !sr.pending_commits.isEmpty then .error .autoCommitPending
  else .ok { sr with auto_commit := state }

/-- `object.__setattr__` on a `ServiceRequest`: the `auto_commit` property
has a setter; the other properties are read-only; any other name becomes a
plain instance attribute.  A non-boolean value assigned to `auto_commit` is
coerced by truthiness, matching how the stored flag is subsequently used. -/
def SR.structuralSet (sr : SR) (name : String) (v : JVal) : Except SRErr SR :=
  if name = "auto_commit" then sr.set_auto_commit v.truthy
  else if name ∈ readOnlyProps then .error (.cantSetAttribute name)
  else .ok { sr with extra := dictSet sr.extra name v }

/-- `ServiceRequest.__setattr__` (lines 75-87): a name in the info map is a
field write — read-only without a client, an immediate `update_sr` call in
auto-commit mode, and otherwise a buffered write that records
`(old, new)` in `pending_commits` (old is the value just before this write)
and mutates the attribute in place.  Any other name falls through to
`object.__setattr__`. -/
def SR.setattr (sr : SR) (name : String) (v : JVal) :
    Except SRErr (SR × List RemoteUpdate) :=
  match dictGet sr.info name with
  | some a =>
    if sr.client.isNone then .error .readOnly
    else if sr.auto_commit then
      .ok (sr, [{ id := sr.id, info := [(name, v)] }])
    else
      .ok ({ sr with info := dictSet sr.info name { a with value := v },
                     pending_commits := dictSet sr.pending_commits name (a.value, v) }, [])
  | none => (sr.structuralSet name v).map (fun sr1 => (sr1, []))

/-- `ServiceRequest.set_client` (lines 140-144). -/
def SR.set_client (sr : SR) (c : Nat) : Except SRErr SR :=
  if sr.client.isSome then .error .clientAlreadySet
  else .ok { sr with client := some c }

/-- `ServiceRequest.commit` (lines 146-159): requires a client, builds the
info list from every pending entry's new value and calls
`client.update_sr` once.  A failure of the remote call (`remoteFails`) is
caught and only logged (lines 157-158), so the state and the `True` return
value are the same in both cases — in particular `pending_commits` is never
cleared. -/
def SR.commit (sr : SR) (_remoteFails : Bool) :
    Except SRErr (SR × List RemoteUpdate × Bool) :=
  if sr.client.isNone then .error .readOnly
  else
    .ok (sr, [{ id := sr.id,
                info := sr.pending_commits.map (fun p => (p.1, p.2.2)) }], true)

/-- Restores one field's in-memory value (`self.__info[field].value = old`).
A key absent from the info map would be a `KeyError` in Python; it cannot
occur because pending keys are only ever created for existing fields. -/
def restoreField (m : List (String × AttrData)) (k : String) (old : JVal) :
    List (String × AttrData) :=
  match dictGet m k with
  | some a => dictSet m k { a with value := old }
  | none => m

/-- `ServiceRequest.rollback` (lines 161-183): with a field, restores that
field's value after two membership checks; with no field, restores every
pending field's value.  In neither case is anything removed from
`pending_commits`. -/
def SR.rollback (sr : SR) (field : Option String) : Except SRErr SR :=
  match field with
  | some f =>
    match dictGet sr.info f with
    | none => .error (.fieldNotInSR f)
    | some a =>
      match dictGet sr.pending_commits f with
      | none => .error (.noPendingEntry f)
      | some ov =>
        .ok { sr with info := dictSet sr.info f { a with value := ov.1 } }
  | none =>
    .ok { sr with
          info := sr.pending_commits.foldl (fun m p => restoreField m p.1 p.2.1) sr.info }

/-- The ticket state `ServiceRequest.__init__` (lines 48-63) sets out to
build: `pending_commits` starts empty and the info map is keyed on each
record's `key`.  In the source this state is never actually reached — the
first assignment of `__init__` already recurses through
`__setattr__`/`__getattribute__` (see `initFirstStatement` below) — so this
record describes the post-construction state that the rest of the class
logic presumes when it reads `self.__info` and friends. -/
def SR.init (i : Int) (cu cd ca hc : Bool) (infoList : List AttrData)
    (client : Option Nat) (ac : Bool) : SR :=
  { id := i, can_update := cu, can_delete := cd, can_archive := ca,
    has_children := hc,
    info := infoList.foldl (fun m d => dictSet m d.key d) [],
    client := client, auto_commit := ac, pending_commits := [], extra := [] }

/-! ### `ServiceRequest` construction (lines 48-63, 89-96)

Inside the class body, `self.__info` mangles to the instance-dictionary name
`_ServiceRequest__info`.  The private attributes are assigned only in
`__init__`, so they are not class attributes, and before line 54 runs the
instance dictionary does not hold the mangled name either.  The first
statement of `__init__` (line 49, `self.__id = id`) therefore runs
`__setattr__`, whose line 76 evaluates `self.__info`:
`object.__getattribute__` raises `AttributeError`, and the handler of
`__getattribute__` (line 70) evaluates `self.__info` again — a fresh, full
resolution of the same unassigned name.  The model below makes this
resolution explicit, with fuel bounding the recursion depth. -/

/-- The mangled instance-dictionary name of the private `__info` map. -/
def infoMangled : String := "_ServiceRequest__info"

/-- Resolution of `self.<name>` through `ServiceRequest.__getattribute__`
(lines 65-73) on an instance whose instance dictionary holds exactly
`instNames`: `object.__getattribute__` succeeds iff the name is a class
attribute or in the instance dictionary (`some true`); otherwise the
`AttributeError` handler first evaluates `self.__info`, i.e. recursively
resolves `infoMangled`, before consulting the field map (`some false`).
`none` means the recursion was still running when the fuel ran out — in
CPython, a `RecursionError`. -/
def resolveAttr (instNames : List String) : String → Nat → Option Bool
  | _, 0 => none
  | name, fuel + 1 =>
    if name ∈ reservedNames ∨ name ∈ instNames then
      some true
    else
      match resolveAttr instNames infoMangled fuel with
      | some _ => some false
      | none => none

/-- The attribute resolution forced by the first statement of `__init__`
(line 49): `__setattr__`'s membership test on line 76 evaluates
`self.__info` while the instance dictionary is still empty. -/
def initFirstStatement (fuel : Nat) : Option Bool :=
  resolveAttr [] infoMangled fuel

/-- One proxy operation; used to state state invariants.  A raised error
leaves the ticket unchanged (every raise in the source happens before any
mutation). -/
inductive SROp where
  | write (name : String) (v : JVal)
  | setAuto (b : Bool)
  | commitOp (remoteFails : Bool)
  | rollbackOp (field : Option String)
  | setClientOp (c : Nat)

/-- Applies one operation, keeping the prior state when it raises. -/
def SR.step (sr : SR) (op : SROp) : SR :=
  match op with
  | .write name v =>
    match sr.setattr name v with
    | .ok (sr1, _) => sr1
    | .error _ => sr
  | .setAuto b =>
    match sr.set_auto_commit b with
    | .ok sr1 => sr1
    | .error _ => sr
  | .commitOp rf =>
    match sr.commit rf with
    | .ok (sr1, _, _) => sr1
    | .error _ => sr
  | .rollbackOp f =>
    match sr.rollback f with
    | .ok sr1 => sr1
    | .error _ => sr
  | .setClientOp c =>
    match sr.set_client c with
    | .ok sr1 => sr1
    | .error _ => sr

/-- The claimed mode invariant: in immediate-commit mode the pending-change
set is empty. -/
def SR.Inv (sr : SR) : Prop :=
  sr.auto_commit = true → sr.pending_commits = []

/-! ### `Client.update_sr` (client.py lines 174-189) -/

/-- One element of the `info` argument of `update_sr`: an `SRAttribute`, a
dict, or a value of any other type. -/
inductive InfoElem where
  | attr (a : AttrData)
  | dict (entries : List (String × JVal))
  | other (tag : String)

/-- `KeyError` raised by a dict subscript. -/
inductive PyErr where
  | keyError (k : String)

/-- The loop of lines 176-182: an `SRAttribute` or dict element is reduced
to its key and value; any other element constructs a `TypeError` that is
never raised (line 182 has no `raise`), so the element is silently
skipped. -/
def build_info_payload : List InfoElem → Except PyErr (List (JVal × JVal))
  | [] => .ok []
  | e :: rest =>
    match e with
    | .attr a => (build_info_payload rest).map (fun t => (.str a.key, a.value) :: t)
    | .dict d =>
      match dictGet d "key" with
      | none => .error (.keyError "key")
      | some kv =>
        match dictGet d "value" with
        | none => .error (.keyError "value")
        | some vv => (build_info_payload rest).map (fun t => (kv, vv) :: t)
    | .other _ => build_info_payload rest

/-- `Client.update_sr`: builds the PUT payload `id` plus `info` and the
endpoint it is sent to. -/
def update_sr (i : Int) (info : List InfoElem) :
    Except PyErr (String × Int × List (JVal × JVal)) :=
  (build_info_payload info).map (fun p => ("sr/" ++ toString i, i, p))

/-- Marks the elements the `update_sr` loop accepts. -/
def InfoElem.wellTyped : InfoElem → Bool
  | .other _ => false
  | _ => true

/-- The key/value reduction `update_sr` applies to a well-typed element. -/
def InfoElem.toKV : InfoElem → Option (JVal × JVal)
  | .attr a => some (.str a.key, a.value)
  | .dict d =>
    match dictGet d "key", dictGet d "value" with
    | some kv, some vv => some (kv, vv)
    | _, _ => none
  | .other _ => none

/-! ### Concrete fixtures used by witness and counterexample theorems -/

/-- A serializer instance for concrete runs. -/
def dumps0 : JVal → String := fun _ => "serialized"

/-- A transport that always answers 401. -/
def t401 : Nat → HttpResponse :=
  fun _ => { status := 401, text := "denied", jsonBody := none }

/-- Initial client state for concrete runs. -/
def st0c : ClientState :=
  { baseUrl := "https://example.sysaidit.com/api/v1/", cookies := [("sid", "old")],
    events := [], attempts := 0 }

/-- Login transport answering 429 on the first attempt and 200 (with a
cookie) afterwards. -/
def t429then200 : Nat → LoginResponse :=
  fun i => if i = 0 then { status := 429, cookies := [] }
           else { status := 200, cookies := [("sid", "abc")] }

/-- Login transport answering 204 on the first attempt and 200 afterwards. -/
def t204then200 : Nat → LoginResponse :=
  fun i => if i = 0 then { status := 204, cookies := [] }
           else { status := 200, cookies := [("sid", "abc")] }

/-- A login transport that always answers 429. -/
def t429 : Nat → LoginResponse := fun _ => { status := 429, cookies := [] }

/-- A login transport that always answers 500. -/
def t500 : Nat → LoginResponse := fun _ => { status := 500, cookies := [] }

/-- Initial login state for concrete runs. -/
def lst0 : LoginState := { cookies := [], store := none, sleeps := 0, waited := 0 }

/-- A deferred-mode ticket with one field `A = "v0"` and a live client. -/
def srA : SR :=
  { id := 7, info := [("A", { key := "A", value := .str "v0" })],
    client := some 0, auto_commit := false }

/-- A deferred-mode ticket with a pending change `status: Open to Closed` and
a second, clean field. -/
def srPending : SR :=
  { id := 3,
    info := [("status", { key := "status", value := .str "Closed" }),
             ("urgency", { key := "urgency", value := .str "Low" })],
    client := some 0, auto_commit := false,
    pending_commits := [("status", (JVal.str "Open", JVal.str "Closed"))] }

/-- A deferred-mode ticket whose field map contains the reserved name
`auto_commit`. -/
def srShadow : SR :=
  { id := 9, info := [("auto_commit", { key := "auto_commit", value := .str "x" })],
    client := some 0, auto_commit := false }

/-- A ticket with one field and no client. -/
def srNoClient : SR :=
  { id := 4, info := [("status", { key := "status", value := .str "Open" })],
    client := none }

/-- A mixed `update_sr` info list: an SRAttribute, a dict, and a value of
some other type. -/
def infoMixed : List InfoElem :=
  [.attr { key := "status", value := .str "Closed" },
   .dict [("key", .str "urgency"), ("value", .str "High")],
   .other "int"]

/-! ### Helper lemmas -/

theorem dictGet_dictSet_self {α : Type} (l : List (String × α)) (k : String) (v : α) :
    dictGet (dictSet l k v) k = some v := by
  induction l with
  | nil => simp [dictGet, dictSet]
  | cons p rest ih =>
    by_cases hp : p.1 = k
    · simp [dictGet, dictSet, hp]
    · simp [dictGet, dictSet, hp, ih]

theorem dictGet_dictSet_ne {α : Type} (l : List (String × α)) (k k' : String) (v : α)
    (h : k' ≠ k) : dictGet (dictSet l k v) k' = dictGet l k' := by
  have h2 : ¬(k = k') := fun hh => h hh.symm
  induction l with
  | nil => simp [dictGet, dictSet, h2]
  | cons p rest ih =>
    by_cases hp : p.1 = k
    · subst hp; simp [dictGet, dictSet, h2]
    · by_cases hq : p.1 = k'
      · simp [dictGet, dictSet, hp, hq, h]
      · simp [dictGet, dictSet, hp, hq, ih]

theorem dictGet_map_snd {α β : Type} (l : List (String × α)) (f : String → α → β) (k : String) :
    dictGet (l.map (fun p => (p.1, f p.1 p.2))) k =
      (dictGet l k).map (fun v => f k v) := by
  induction l with
  | nil => simp [dictGet]
  | cons p rest ih =>
    by_cases hp : p.1 = k
    · subst hp; simp [dictGet]
    · simp [dictGet, hp, ih]

theorem pySerialize_str (dumps : JVal → String) (s : String) :
    pySerialize dumps (some (.str s)) = some (.str s) := by
  by_cases h : (Body.str s).truthy <;> simp [pySerialize, h]

theorem pySerialize_idem (dumps : JVal → String) (b : Option Body) :
    pySerialize dumps (pySerialize dumps b) = pySerialize dumps b := by
  match b with
  | none => rfl
  | some (.str s) => rw [pySerialize_str, pySerialize_str]
  | some (.json v) =>
    by_cases h : (Body.json v).truthy
    · simp only [pySerialize, h, if_pos]
      exact pySerialize_str dumps (dumps v)
    · simp [pySerialize, h]

theorem loginCount_make_request_retry (dumps : JVal → String)
    (transport : Nat → HttpResponse) (method endpoint : String)
    (params : Option (List (String × String))) (body : Option Body)
    (files : Option (List (String × String))) (st : ClientState) :
    loginCount (make_request_retry dumps transport method endpoint params body files st).1
      = loginCount st := by
  unfold make_request_retry
  by_cases hm : validMethod method
  · simp only [hm, if_pos]
    by_cases h200 : (transport st.attempts).status = 200
    · simp [h200, loginCount, ClientEvent.isLogin]
    · by_cases h401 : (transport st.attempts).status = 401
      · simp [h200, h401, loginCount, ClientEvent.isLogin]
      · simp [h200, h401, loginCount, ClientEvent.isLogin]
  · simp [hm, loginCount]


theorem dictGet_map_newval (l : List (String × (JVal × JVal))) (k : String) :
    dictGet (l.map (fun p => (p.1, p.2.2))) k = (dictGet l k).map (fun q => q.2) := by
  induction l with
  | nil => simp [dictGet]
  | cons p rest ih =>
    by_cases hp : p.1 = k
    · subst hp; simp [dictGet]
    · simp [dictGet, hp, ih]

theorem build_info_payload_ok (l : List InfoElem)
    (h : ∀ d, InfoElem.dict d ∈ l →
      (dictGet d "key").isSome = true ∧ (dictGet d "value").isSome = true) :
    build_info_payload l = .ok (l.filterMap InfoElem.toKV) := by
  induction l with
  | nil => simp [build_info_payload]
  | cons e rest ih =>
    have hrest : ∀ d, InfoElem.dict d ∈ rest →
        (dictGet d "key").isSome = true ∧ (dictGet d "value").isSome = true :=
      fun d hd => h d (List.mem_cons_of_mem _ hd)
    cases e with
    | attr a => simp [build_info_payload, InfoElem.toKV, ih hrest, Except.map]
    | dict dct =>
      obtain ⟨hk, hv⟩ := h dct (List.mem_cons_self _ _)
      obtain ⟨kv, hkv⟩ := Option.isSome_iff_exists.mp hk
      obtain ⟨vv, hvv⟩ := Option.isSome_iff_exists.mp hv
      simp [build_info_payload, InfoElem.toKV, hkv, hvv, ih hrest, Except.map]
    | other t => simp [build_info_payload, InfoElem.toKV, ih hrest]

/-! ### The claims -/

/-- Claim C6: a ticket whose client reference is absent is read-only — a
write to any name in its field map raises the Read-Only error in either
commit mode, and the ticket state (field map and pending-change set) is left
unchanged. -/
theorem claim_c6 (sr : SR) (name : String) (a : AttrData) (v : JVal)
    (hc : sr.client = none) (ha : dictGet sr.info name = some a) :
    sr.setattr name v = .error .readOnly ∧ sr.step (.write name v) = sr := by
  have h1 : sr.setattr name v = .error .readOnly := by
    simp [SR.setattr, ha, hc]
  exact ⟨h1, by simp [SR.step, h1]⟩

/-- Witness for C6 at a concrete client-less ticket. -/
theorem claim_c6_witness :
    SR.setattr srNoClient "status" (.str "Closed") = .error .readOnly ∧
      SR.step srNoClient (.write "status" (.str "Closed")) = srNoClient :=
  claim_c6 srNoClient "status" { key := "status", value := .str "Open" }
    (.str "Closed") rfl rfl

/-- Claim C10: `update_sr` silently skips info elements that are neither a
dict nor an SRAttribute (the TypeError of line 182 is constructed but never
raised), and the PUT body's info list is exactly the key/value reduction of
the well-typed elements, in their original order. -/
theorem claim_c10 (i : Int) (info : List InfoElem)
    (h : ∀ d, InfoElem.dict d ∈ info →
      (dictGet d "key").isSome = true ∧ (dictGet d "value").isSome = true) :
    update_sr i info = .ok ("sr/" ++ toString i, i, info.filterMap InfoElem.toKV)
  ∧ info.filterMap InfoElem.toKV
      = (info.filter InfoElem.wellTyped).filterMap InfoElem.toKV := by
  constructor
  · simp [update_sr, build_info_payload_ok info h, Except.map]
  · induction info with
    | nil => simp
    | cons e rest ih =>
      have hrest : ∀ d, InfoElem.dict d ∈ rest →
          (dictGet d "key").isSome = true ∧ (dictGet d "value").isSome = true :=
        fun d hd => h d (List.mem_cons_of_mem _ hd)
      cases e with
      | attr a =>
        simp only [List.filterMap_cons, List.filter_cons, InfoElem.wellTyped, ite_true,
          ih hrest]
      | dict dct =>
        simp only [List.filterMap_cons, List.filter_cons, InfoElem.wellTyped, ite_true,
          ih hrest]
      | other t => simp [InfoElem.toKV, InfoElem.wellTyped, ih hrest]

/-- Witness for C10: the int element is skipped, the attribute and the dict
survive in order. -/
theorem claim_c10_witness :
    update_sr 5 infoMixed
      = .ok ("sr/5", 5, [(.str "status", .str "Closed"), (.str "urgency", .str "High")]) := by
  have h := (claim_c10 5 infoMixed (by
    intro d hd
    simp only [infoMixed, List.mem_cons, List.not_mem_nil, or_false] at hd
    rcases hd with hd | hd | hd
    · cases hd
    · injection hd with h1
      subst h1
      exact ⟨rfl, rfl⟩
    · cases hd)).1
  rw [h]
  rfl

/-- C9 evaluated at the failing input: constructing a `ServiceRequest` —
which every `from_response`, `get_sr`, `get_sr_list`, `search_srs` and
`create_sr` object-path call attempts — never completes.  The first
assignment of `__init__` forces a resolution of `self.__info` on an empty
instance dictionary; the mangled name is not a class attribute, so
`object.__getattribute__` raises `AttributeError` and the handler re-reads
`self.__info`, and the resolution does not terminate at any recursion
depth (a `RecursionError` in CPython), so no ticket is ever produced. -/
theorem claim_c9_code_bug :
    (∀ fuel, initFirstStatement fuel = none) ∧ infoMangled ∉ reservedNames := by
  have hmem : ¬(infoMangled ∈ reservedNames ∨ infoMangled ∈ ([] : List String)) := by
    decide
  constructor
  · intro fuel
    induction fuel with
    | zero => rfl
    | succ n ih =>
      unfold initFirstStatement at ih ⊢
      unfold resolveAttr
      rw [if_neg hmem, ih]
  · decide

/-- Counterexample to C2 at a concrete ticket: after `write(A, v1)` then
`write(A, v2)` starting from `A = "v0"`, the pending entry for `A` is
`(old = "v1", new = "v2")` — the old side is the value immediately before
the latest write, not the claimed original value `"v0"`. -/
theorem claim_c2_counterexample :
    dictGet ((srA.step (.write "A" (.str "v1"))).step (.write "A" (.str "v2"))).pending_commits "A"
      = some (.str "v1", .str "v2")
  ∧ (some ((JVal.str "v1"), (JVal.str "v2")) : Option (JVal × JVal))
      ≠ some ((JVal.str "v0"), (JVal.str "v2")) := by
  constructor
  · rfl
  · simp

/-- Claim C2 (amended): in deferred mode, `write(A, v1)` then `write(A, v2)`
leaves the pending entry for `A` at old value `v1` — the in-memory value
immediately before the latest write (the old side is overwritten on every
write, not captured once) — and new value `v2`; the in-memory attribute is
updated so reading `A` yields `v2` before commit, and `commit()` issues
exactly one remote update whose body maps `A` to `v2`. -/
theorem claim_c2_amended (sr : SR) (A : String) (a : AttrData) (c : Nat) (v1 v2 : JVal)
    (hc : sr.client = some c) (hm : sr.auto_commit = false)
    (ha : dictGet sr.info A = some a)
    (hres : A ∉ reservedNames) (hex : dictGet sr.extra A = none) :
    ∃ sr1 sr2 : SR,
      sr.setattr A v1 = .ok (sr1, [])
    ∧ sr1.setattr A v2 = .ok (sr2, [])
    ∧ dictGet sr2.pending_commits A = some (v1, v2)
    ∧ sr2.getattr A = .ok (.field v2)
    ∧ (∀ rf, ∃ u : RemoteUpdate,
        sr2.commit rf = .ok (sr2, [u], true) ∧ dictGet u.info A = some v2) := by
  refine ⟨{ sr with info := dictSet sr.info A { a with value := v1 },
                    pending_commits := dictSet sr.pending_commits A (a.value, v1) },
          { sr with info := dictSet (dictSet sr.info A { a with value := v1 }) A
                              { a with value := v2 },
                    pending_commits := dictSet (dictSet sr.pending_commits A (a.value, v1)) A
                              (v1, v2) },
          ?_, ?_, ?_, ?_, ?_⟩
  · simp [SR.setattr, ha, hc, hm]
  · simp [SR.setattr, dictGet_dictSet_self, hc, hm]
  · exact dictGet_dictSet_self _ _ _
  · simp [SR.getattr, hex, hres, dictGet_dictSet_self]
  · intro rf
    refine ⟨{ id := sr.id,
              info := (dictSet (dictSet sr.pending_commits A (a.value, v1)) A (v1, v2)).map
                        (fun p => (p.1, p.2.2)) }, ?_, ?_⟩
    · simp [SR.commit, hc]
    · rw [dictGet_map_newval, dictGet_dictSet_self]
      rfl

/-- Witness for C2 (amended) at the concrete ticket `srA`. -/
theorem claim_c2_witness :
    ∃ sr1 sr2 : SR,
      srA.setattr "A" (.str "v1") = .ok (sr1, [])
    ∧ sr1.setattr "A" (.str "v2") = .ok (sr2, [])
    ∧ dictGet sr2.pending_commits "A" = some (.str "v1", .str "v2")
    ∧ sr2.getattr "A" = .ok (.field (.str "v2"))
    ∧ (∀ rf, ∃ u : RemoteUpdate,
        sr2.commit rf = .ok (sr2, [u], true) ∧ dictGet u.info "A" = some (.str "v2")) :=
  claim_c2_amended srA "A" { key := "A", value := .str "v0" } 0 (.str "v1") (.str "v2")
    rfl rfl rfl (by decide) rfl

/-- C3 evaluated at the failing input: `commit()` issues the single update
carrying every pending new value and swallows a remote failure, but the
pending-change set is left intact even when the remote call succeeds —
`commit` never clears it, contradicting the code's own guidance that
`commit()`/`rollback()` clear pending changes. -/
theorem claim_c3_code_bug :
    SR.commit srPending false
      = .ok (srPending, [{ id := 3, info := [("status", JVal.str "Closed")] }], true)
  ∧ SR.commit srPending true
      = .ok (srPending, [{ id := 3, info := [("status", JVal.str "Closed")] }], true)
  ∧ srPending.pending_commits ≠ [] := by
  refine ⟨rfl, rfl, ?_⟩
  simp [srPending]

/-- C4 evaluated at the failing input: `rollback()` (and `rollback(field)`)
restores the in-memory value to the recorded old value, and a field with no
pending entry raises the Not-Found error, but no entry is ever removed from
the pending-change set. -/
theorem claim_c4_code_bug :
    (SR.rollback srPending none).map
        (fun s => (dictGet s.info "status", s.pending_commits))
      = .ok (some { key := "status", value := .str "Open" },
             [("status", (JVal.str "Open", JVal.str "Closed"))])
  ∧ (SR.rollback srPending (some "status")).map
        (fun s => (dictGet s.info "status", s.pending_commits))
      = .ok (some { key := "status", value := .str "Open" },
             [("status", (JVal.str "Open", JVal.str "Closed"))])
  ∧ SR.rollback srPending (some "urgency") = .error (.noPendingEntry "urgency")
  ∧ srPending.pending_commits ≠ [] := by
  refine ⟨rfl, rfl, rfl, ?_⟩
  simp [srPending]

/-- Counterexample to C8 at a concrete ticket: writing the reserved name
`auto_commit` when a ticket field of that name exists resolves to the ticket
field — the pending set gains an entry for it and the structural
`auto_commit` flag is untouched (a truthy structural assignment would have
flipped it). -/
theorem claim_c8_counterexample :
    (srShadow.step (.write "auto_commit" (.str "y"))).auto_commit = false
  ∧ dictGet (srShadow.step (.write "auto_commit" (.str "y"))).pending_commits "auto_commit"
      = some (.str "x", .str "y") := by
  exact ⟨rfl, rfl⟩

/-- Claim C8 (amended): reads of a reserved structural identifier always
resolve to the structural attribute, never the ticket field; but writes
resolve to the ticket field whenever the name is in the field mapping (the
field-map check of `__setattr__` precedes structural assignment), so a
colliding field is write-reachable though not read-reachable. -/
theorem claim_c8_amended :
    (∀ (sr : SR) (name : String), name ∈ reservedNames → sr.getattr name = .ok .structural)
  ∧ (∀ (sr : SR) (name : String) (v : JVal) (a : AttrData) (c : Nat),
      dictGet sr.info name = some a → sr.client = some c → sr.auto_commit = true →
      sr.setattr name v = .ok (sr, [{ id := sr.id, info := [(name, v)] }]))
  ∧ (∀ (sr : SR) (name : String) (v : JVal) (a : AttrData) (c : Nat),
      dictGet sr.info name = some a → sr.client = some c → sr.auto_commit = false →
      sr.setattr name v
        = .ok ({ sr with info := dictSet sr.info name { a with value := v },
                         pending_commits := dictSet sr.pending_commits name (a.value, v) },
               [])) := by
  refine ⟨?_, ?_, ?_⟩
  · intro sr name hres
    simp [SR.getattr, hres]
  · intro sr name v a c ha hc hac
    simp [SR.setattr, ha, hc, hac]
  · intro sr name v a c ha hc hac
    simp [SR.setattr, ha, hc, hac]

/-- Witness for C8 (amended): reads of `auto_commit` on the shadowed ticket
are structural, writes land on the field. -/
theorem claim_c8_witness :
    srShadow.getattr "auto_commit" = .ok .structural
  ∧ srShadow.setattr "auto_commit" (.str "y")
      = .ok ({ srShadow with
                info := dictSet srShadow.info "auto_commit"
                          { key := "auto_commit", value := .str "y" },
                pending_commits := dictSet srShadow.pending_commits "auto_commit"
                          (.str "x", .str "y") }, []) := by
  have h := claim_c8_amended
  exact ⟨h.1 srShadow "auto_commit" (by decide),
    h.2.2 srShadow "auto_commit" (.str "y") { key := "auto_commit", value := .str "x" } 0
      rfl rfl rfl⟩

/-- Claim C5: in immediate-commit mode the pending-change set is empty.
Every freshly constructed ticket satisfies this, and every proxy operation
preserves it: immediate-mode field writes never touch the pending set, and
enabling `auto_commit` fails while the pending set is non-empty. -/
theorem claim_c5 :
    (∀ (i : Int) (cu cd ca hc : Bool) (infoList : List AttrData)
        (client : Option Nat) (ac : Bool),
      (SR.init i cu cd ca hc infoList client ac).Inv)
  ∧ (∀ (sr : SR) (op : SROp), sr.Inv → (sr.step op).Inv) := by
  constructor
  · intro i cu cd ca hc infoList client ac _
    rfl
  · intro sr op hInv
    cases op with
    | write name v =>
      unfold SR.step
      cases hma : dictGet sr.info name with
      | some a =>
        by_cases hcl : sr.client.isNone
        · simp [SR.setattr, hma, hcl, hInv]
        · by_cases hac : sr.auto_commit
          · simp [SR.setattr, hma, hcl, hac, hInv]
          · simp only [SR.setattr, hma, hcl, Bool.false_eq_true, if_neg, hac, if_false]
            intro h
            exact absurd h (by simp_all)
      | none =>
        simp only [SR.setattr, hma]
        unfold SR.structuralSet
        by_cases hn : name = "auto_commit"
        · simp only [hn, if_pos]
          unfold SR.set_auto_commit
          by_cases h1 : v.truthy == sr.auto_commit
          · simp [h1, hInv, Except.map]
          · by_cases h2 : v.truthy && !sr.pending_commits.isEmpty
            · simp [h1, h2, hInv, Except.map]
            · simp only [h1, Bool.false_eq_true, if_neg, h2, if_false, Except.map]
              intro h
              have hv : v.truthy = true := h
              rw [hv] at h2
              simp only [Bool.true_and] at h2
              simpa using h2
        · by_cases hro : name ∈ readOnlyProps
          · simp [hn, hro, hInv, Except.map]
          · simp [hn, hro, SR.Inv, Except.map] at hInv ⊢
            exact hInv
    | setAuto b =>
      unfold SR.step SR.set_auto_commit
      by_cases h1 : b == sr.auto_commit
      · simp [h1, hInv]
      · by_cases h2 : b && !sr.pending_commits.isEmpty
        · simp [h1, h2, hInv]
        · simp only [h1, Bool.false_eq_true, if_neg, h2, if_false]
          intro h
          have hb : b = true := h
          rw [hb] at h2
          simp only [Bool.true_and] at h2
          simpa using h2
    | commitOp rf =>
      unfold SR.step SR.commit
      by_cases hcl : sr.client.isNone
      · simp [hcl, hInv]
      · simp [hcl, hInv]
    | rollbackOp f =>
      unfold SR.step SR.rollback
      cases f with
      | none => simpa [SR.Inv] using hInv
      | some ff =>
        cases h1 : dictGet sr.info ff with
        | none => simpa [SR.Inv, h1] using hInv
        | some a =>
          cases h2 : dictGet sr.pending_commits ff with
          | none => simpa [SR.Inv, h1, h2] using hInv
          | some ov => simpa [SR.Inv, h1, h2] using hInv
    | setClientOp c =>
      unfold SR.step SR.set_client
      by_cases hcl : sr.client.isSome
      · simp [hcl, hInv]
      · simpa [hcl, SR.Inv] using hInv

/-- Witness for C5: the invariant is preserved at a concrete ticket and
operation. -/
theorem claim_c5_witness : (srNoClient.step (.setAuto false)).Inv :=
  claim_c5.2 srNoClient (.setAuto false) (fun _ => rfl)

/-- Counterexample to C7 at a concrete transport: the first login attempt
returns 204 — a status other than 200 and 429 — yet `login` does not fail
with a Remote-Error; `raise_for_status` is a no-op below 400, the loop
re-posts, and login succeeds on the second attempt. -/
theorem claim_c7_counterexample :
    login t204then200 2 0 lst0
      = some (.ok { cookies := [("sid", "abc")], store := some [("sid", "abc")],
                    sleeps := 0, waited := 0 })
  ∧ login t204then200 2 0 lst0 ≠ some (.error (.httpError 204)) := by
  refine ⟨rfl, ?_⟩
  intro h
  rw [show login t204then200 2 0 lst0
      = some (.ok { cookies := [("sid", "abc")], store := some [("sid", "abc")],
                    sleeps := 0, waited := 0 }) from rfl] at h
  simp at h

/-- Claim C7 (amended): `login()` loops until a 200 or a 4xx/5xx status
other than 429 arrives.  On 429 it sleeps exactly one fixed 300-second
cool-down per attempt, with no backoff growth and no attempt cap, so under
persistent 429 it never returns; for a transport answering 429 then 200,
exactly one sleep occurs and the second attempt succeeds, capturing and
persisting the returned cookies.  A 4xx/5xx status other than 429 fails
with a Remote-Error; any other non-200 status merely causes an immediate
re-post with no sleep. -/
theorem claim_c7_amended (t : Nat → LoginResponse) (st : LoginState)
    (h429 : (t 0).status = 429) (h200 : (t 1).status = 200) :
    login t 2 0 st
      = some (.ok { cookies := (t 1).cookies, store := some (t 1).cookies,
                    sleeps := st.sleeps + 1, waited := st.waited + 300 })
  ∧ (∀ (u : Nat → LoginResponse) (fuel i : Nat) (st1 : LoginState),
      (∀ j, (u j).status = 429) → login u fuel i st1 = none)
  ∧ (∀ (u : Nat → LoginResponse) (fuel i : Nat) (st1 : LoginState),
      400 ≤ (u i).status → (u i).status < 600 → (u i).status ≠ 429 →
      login u (fuel + 1) i st1 = some (.error (.httpError (u i).status))) := by
  refine ⟨?_, ?_, ?_⟩
  · have hne : (t 0).status ≠ 200 := by rw [h429]; decide
    simp [login, hne, h429, h200]
  · intro u fuel
    induction fuel with
    | zero => intro i st1 _; rfl
    | succ n ih =>
      intro i st1 hall
      have h1 : (u i).status = 429 := hall i
      have hne : (u i).status ≠ 200 := by rw [h1]; decide
      simp only [login, hne, if_neg, h1, if_pos, ite_true, ite_false]
      simpa [h1] using ih (i + 1) _ hall
  · intro u fuel i st1 hge hlt hne429
    have hne200 : (u i).status ≠ 200 := by omega
    simp [login, hne200, hne429, hge, hlt]

/-- Witness for C7 (amended) at the 429-then-200 transport, the constant-429
transport, and the constant-500 transport. -/
theorem claim_c7_witness :
    login t429then200 2 0 lst0
      = some (.ok { cookies := [("sid", "abc")], store := some [("sid", "abc")],
                    sleeps := 1, waited := 300 })
  ∧ login t429 5 0 lst0 = none
  ∧ login t500 3 0 lst0 = some (.error (.httpError 500)) := by
  have h := claim_c7_amended t429then200 lst0 rfl rfl
  refine ⟨h.1, h.2.1 t429 5 0 lst0 (fun j => ?_), h.2.2 t500 2 0 lst0 (by decide) (by decide) (by decide)⟩
  rfl

theorem loginCount_make_request_le (dumps : JVal → String)
    (transport : Nat → HttpResponse) (loginCookies : List (String × String))
    (method endpoint : String) (params : Option (List (String × String)))
    (body : Option Body) (files : Option (List (String × String)))
    (retry : Bool) (st : ClientState) :
    loginCount (make_request dumps transport loginCookies method endpoint params body
        files retry st).1 ≤ loginCount st + 1 := by
  cases retry with
  | true =>
    rw [show make_request dumps transport loginCookies method endpoint params body files
        true st = make_request_retry dumps transport method endpoint params body files st
      from rfl]
    rw [loginCount_make_request_retry]
    omega
  | false =>
    unfold make_request
    by_cases hm : validMethod method
    · simp only [hm, if_pos, Bool.false_eq_true, if_false]
      by_cases h200 : (transport st.attempts).status = 200
      · simp only [h200, if_pos, ite_true, loginCount, List.countP_append]
        simp [ClientEvent.isLogin]
      · by_cases h401 : (transport st.attempts).status = 401
        · rw [if_neg h200, if_pos h401, loginCount_make_request_retry]
          simp only [loginCount, List.countP_append]
          simp [ClientEvent.isLogin]
        · rw [if_neg h200, if_neg h401]
          simp only [loginCount, List.countP_append]
          simp [ClientEvent.isLogin]
    · simp [hm]

/-- Claim C1: a 401 on a `retry=False` call triggers exactly one `login()`
followed by one replay of the identical request — same method, URL, params,
serialized body and files, only the cookie set refreshed — with
`retry=True`; a second 401 makes the call fail with the authorization
error, with no further login or replay, and on any transport a single
`make_request` call performs at most one login. -/
theorem claim_c1 (dumps : JVal → String) (transport : Nat → HttpResponse)
    (loginCookies : List (String × String)) (method endpoint : String)
    (params : Option (List (String × String))) (body : Option Body)
    (files : Option (List (String × String))) (st : ClientState)
    (hm : validMethod method = true)
    (h1 : (transport st.attempts).status = 401)
    (h2 : (transport (st.attempts + 1)).status = 401) :
    make_request dumps transport loginCookies method endpoint params body files false st
      = ({ st with
            cookies := loginCookies,
            events := st.events ++
              [.http (buildSent st.baseUrl st.cookies method endpoint params
                        (pySerialize dumps body) files) false 401,
               .loginCall,
               .http (buildSent st.baseUrl loginCookies method endpoint params
                        (pySerialize dumps body) files) true 401],
            attempts := st.attempts + 2 },
         .error (.authFailed (transport (st.attempts + 1)).text))
  ∧ (∀ (t2 : Nat → HttpResponse) (st2 : ClientState) (retryFlag : Bool),
      loginCount (make_request dumps t2 loginCookies method endpoint params body files
          retryFlag st2).1 ≤ loginCount st2 + 1) := by
  constructor
  · have hne : (transport st.attempts).status ≠ 200 := by rw [h1]; decide
    have hne2 : (transport (st.attempts + 1)).status ≠ 200 := by rw [h2]; decide
    unfold make_request
    rw [if_neg (by decide : ¬(false = true)), if_pos hm, if_neg hne, if_pos h1]
    unfold make_request_retry
    rw [pySerialize_idem]
    rw [if_pos hm]
    simp only [if_neg hne2, if_pos h2, h1, h2]
    simp [List.append_assoc]
  · intro t2 st2 retryFlag
    exact loginCount_make_request_le dumps t2 loginCookies method endpoint params body
      files retryFlag st2

/-- Witness for C1 at a concrete always-401 transport: the call fails with
the authorization error after exactly one login. -/
theorem claim_c1_witness :
    (make_request dumps0 t401 [("sid", "new")] "get" "sr/42" none none none false st0c).2
      = .error (.authFailed "denied")
  ∧ loginCount (make_request dumps0 t401 [("sid", "new")] "get" "sr/42" none none none
        false st0c).1 = 1 := by
  have h := claim_c1 dumps0 t401 [("sid", "new")] "get" "sr/42" none none none st0c
    (by decide) rfl rfl
  constructor
  · rw [h.1]
    rfl
  · rw [h.1]
    rfl
